import Mathlib

/-!
Verification of the `elysia-clerk-mock` package (`src/index.ts`).

The source is a TypeScript class `ElysiaClerkMock` holding one mutable
`authObject` plus a `defaultAuthObject` captured at construction, together
with a request-gate `resolve` step and a companion mock Clerk client.

Embedding conventions:
* JavaScript object spread over the auth-object shape is modelled fieldwise:
  a `Partial` input has an `Option` per field (absent key = `none`), and a
  field slot that may hold `undefined`, `null` or a value is `JsVal`.
* The three capability fields (`getToken`, `has`, `debug`) are modelled as
  Lean functions; `getToken` is async in the source but has no suspension
  point, so it is modelled by its resolved value.
* Strings are Lean `String`s; the JavaScript `startsWith` test is modelled
  as a character-list prefix test (`strStartsWith`).
* Object identity and in-place mutation (needed for the `getUser` snapshot
  question) are modelled separately by a small heap model (`JsHeapState`)
  in which top-level auth objects and the nested `sessionClaims` record are
  addressed cells, mirroring JavaScript reference semantics.
-/

/-- A JavaScript value slot that may hold `undefined`, `null`, or a value of
type `α`.  The source distinguishes absent/`undefined` from `null`: for
example `DEFAULT_AUTH_OBJECT.orgSlug` is `undefined` while
`mockUnauthenticated` assigns `null` to every data field. -/
inductive JsVal (α : Type) where
  | undefinedVal : JsVal α
  | jnull : JsVal α
  | val : α → JsVal α
deriving DecidableEq

/-- Models the JavaScript test `x !== null` on a value slot. -/
def jsNotNull {α : Type} : JsVal α → Bool
  | .jnull => false
  | _ => true

/-- The `sessionClaims` record of the source's `SignedInAuthObject` type:
raw-token placeholder, subject, issuer, session id, the `nbf`/`exp`/`iat`
integer timestamps, and an optional list of role strings. -/
structure SessionClaims where
  __raw : String
  sub : String
  iss : String
  sid : String
  nbf : Int
  exp : Int
  iat : Int
  roles : Option (List String)
deriving DecidableEq

/-- The `actor` impersonation value is typed `any` in the source; it is
modelled as a generic string-keyed record. -/
abbrev ActorObj := List (String × String)

/-- The runtime auth object held by the store, with the fields of
`DEFAULT_AUTH_OBJECT` in source order.  Data fields are `JsVal` slots since
`mockUnauthenticated` assigns `null` to each of them at runtime. -/
structure AuthObject where
  userId : JsVal String
  orgId : JsVal String
  sessionClaims : JsVal SessionClaims
  sessionId : JsVal String
  actor : JsVal ActorObj
  orgRole : JsVal String
  orgSlug : JsVal String
  orgPermissions : JsVal (List String)
  factorVerificationAge : JsVal (Int × Int)
  getToken : Unit → String
  has : String → Bool
  debug : Unit → List (String × String)

/-- A `Partial<SignedInAuthObject>` argument: each field is either absent
(`none`) or present with a slot value (which object spread will copy,
winning over the base object's field). -/
structure PartialAuth where
  userId : Option (JsVal String)
  orgId : Option (JsVal String)
  sessionClaims : Option (JsVal SessionClaims)
  sessionId : Option (JsVal String)
  actor : Option (JsVal ActorObj)
  orgRole : Option (JsVal String)
  orgSlug : Option (JsVal String)
  orgPermissions : Option (JsVal (List String))
  factorVerificationAge : Option (JsVal (Int × Int))
  getToken : Option (Unit → String)
  has : Option (String → Bool)
  debug : Option (Unit → List (String × String))

/-- The empty partial `\x7b\x7d` (no keys present). -/
def noUpdate : PartialAuth :=
  ⟨none, none, none, none, none, none, none, none, none, none, none, none⟩

/-- Object spread `\x7b ...a, ...u \x7d` of a partial over a full auth
object: a key present in `u` overrides `a`'s field, shallowly. -/
def spreadAuth (a : AuthObject) (u : PartialAuth) : AuthObject where
  userId := u.userId.getD a.userId
  orgId := u.orgId.getD a.orgId
  sessionClaims := u.sessionClaims.getD a.sessionClaims
  sessionId := u.sessionId.getD a.sessionId
  actor := u.actor.getD a.actor
  orgRole := u.orgRole.getD a.orgRole
  orgSlug := u.orgSlug.getD a.orgSlug
  orgPermissions := u.orgPermissions.getD a.orgPermissions
  factorVerificationAge := u.factorVerificationAge.getD a.factorVerificationAge
  getToken := u.getToken.getD a.getToken
  has := u.has.getD a.has
  debug := u.debug.getD a.debug

/-- Field selection for spread between two partials: the update's key wins
when present. -/
def pickField {α : Type} : Option α → Option α → Option α
  | some v, _ => some v
  | none, b => b

/-- Object spread `\x7b ...base, ...upd \x7d` of one partial over another,
as in the object literal `mockAdmin`/`mockUser` pass to `setUser` (preset
keys first, then `...customProps`). -/
def overlayPartial (base upd : PartialAuth) : PartialAuth where
  userId := pickField upd.userId base.userId
  orgId := pickField upd.orgId base.orgId
  sessionClaims := pickField upd.sessionClaims base.sessionClaims
  sessionId := pickField upd.sessionId base.sessionId
  actor := pickField upd.actor base.actor
  orgRole := pickField upd.orgRole base.orgRole
  orgSlug := pickField upd.orgSlug base.orgSlug
  orgPermissions := pickField upd.orgPermissions base.orgPermissions
  factorVerificationAge := pickField upd.factorVerificationAge base.factorVerificationAge
  getToken := pickField upd.getToken base.getToken
  has := pickField upd.has base.has
  debug := pickField upd.debug base.debug

/-- The default session claims inside `DEFAULT_AUTH_OBJECT` (no `roles`
key). -/
def defaultSessionClaims : SessionClaims :=
  { __raw := ""
    sub := "user_default"
    iss := "https://clerk.com"
    sid := "sess_default"
    nbf := 0
    exp := 0
    iat := 0
    roles := none }

/-- The module-level `DEFAULT_AUTH_OBJECT` constant. -/
def DEFAULT_AUTH_OBJECT : AuthObject :=
  { userId := .val "user_default"
    orgId := .val "org_default"
    sessionClaims := .val defaultSessionClaims
    sessionId := .val "sess_default"
    actor := .undefinedVal
    orgRole := .val "org:member"
    orgSlug := .undefinedVal
    orgPermissions := .undefinedVal
    factorVerificationAge := .jnull
    getToken := fun _ => ""
    has := fun _ => false
    debug := fun _ => [] }

/-- The store: the mutable current `authObject` and the `defaultAuthObject`
captured at construction. -/
structure ElysiaClerkMock where
  authObject : AuthObject
  defaultAuthObject : AuthObject

/-- The constructor: current = spread of `initialUser` over
`DEFAULT_AUTH_OBJECT`; default = shallow copy of that same object. -/
def ElysiaClerkMock.init (initialUser : PartialAuth) : ElysiaClerkMock :=
  let a := spreadAuth DEFAULT_AUTH_OBJECT initialUser
  ⟨a, a⟩

/-- `setUser(userData)`: shallow-merges `userData` onto the current auth
object. -/
def ElysiaClerkMock.setUser (m : ElysiaClerkMock) (userData : PartialAuth) : ElysiaClerkMock :=
  { m with authObject := spreadAuth m.authObject userData }

/-- The session claims of the admin preset inside `mockAdmin`. -/
def adminSessionClaims : SessionClaims :=
  { __raw := ""
    sub := "user_admin"
    iss := "https://clerk.com"
    sid := "sess_admin"
    nbf := 0
    exp := 0
    iat := 0
    roles := some ["org:admin"] }

/-- The preset keys of the object literal `mockAdmin` passes to `setUser`
(before `...customProps`). -/
def adminPreset : PartialAuth :=
  { noUpdate with
    userId := some (.val "user_admin")
    orgId := some (.val "org_admin")
    orgRole := some (.val "org:admin")
    sessionClaims := some (.val adminSessionClaims) }

/-- `mockAdmin(customProps)`: calls `setUser` with the admin preset spread
with `customProps`.  The source also returns a shallow copy of the
resulting auth object, which at the value level is `getUser` of the
resulting state. -/
def ElysiaClerkMock.mockAdmin (m : ElysiaClerkMock) (customProps : PartialAuth) : ElysiaClerkMock :=
  m.setUser (overlayPartial adminPreset customProps)

/-- The session claims of the member preset inside `mockUser`. -/
def userSessionClaims : SessionClaims :=
  { __raw := ""
    sub := "user_regular"
    iss := "https://clerk.com"
    sid := "sess_user"
    nbf := 0
    exp := 0
    iat := 0
    roles := some ["org:member"] }

/-- The preset keys of the object literal `mockUser` passes to `setUser`. -/
def userPreset : PartialAuth :=
  { noUpdate with
    userId := some (.val "user_regular")
    orgId := some (.val "org_regular")
    orgRole := some (.val "org:member")
    sessionClaims := some (.val userSessionClaims) }

/-- `mockUser(customProps)`. -/
def ElysiaClerkMock.mockUser (m : ElysiaClerkMock) (customProps : PartialAuth) : ElysiaClerkMock :=
  m.setUser (overlayPartial userPreset customProps)

/-- The object literal `mockUnauthenticated` assigns: every data field
explicitly `null`, fresh capability functions with the same behaviour. -/
def UNAUTHENTICATED_AUTH_OBJECT : AuthObject :=
  { userId := .jnull
    orgId := .jnull
    sessionClaims := .jnull
    sessionId := .jnull
    actor := .jnull
    orgRole := .jnull
    orgSlug := .jnull
    orgPermissions := .jnull
    factorVerificationAge := .jnull
    getToken := fun _ => ""
    has := fun _ => false
    debug := fun _ => [] }

/-- `mockUnauthenticated()`: replaces the current auth object wholesale. -/
def ElysiaClerkMock.mockUnauthenticated (m : ElysiaClerkMock) : ElysiaClerkMock :=
  { m with authObject := UNAUTHENTICATED_AUTH_OBJECT }

/-- `getUser()`: returns `\x7b ...this.authObject \x7d`, a shallow copy; at
the value level this equals the current auth object.  (Reference-level
behaviour of the shallow copy is modelled by the heap model below.) -/
def ElysiaClerkMock.getUser (m : ElysiaClerkMock) : AuthObject :=
  m.authObject

/-- `reset()`: current becomes a shallow copy of the stored default. -/
def ElysiaClerkMock.reset (m : ElysiaClerkMock) : ElysiaClerkMock :=
  { m with authObject := m.defaultAuthObject }

/-- One store mutation, for stating properties over arbitrary mutation
sequences. -/
inductive MockOp where
  | admin : PartialAuth → MockOp
  | user : PartialAuth → MockOp
  | unauthenticated : MockOp
  | set : PartialAuth → MockOp

/-- Apply one mutation to the store. -/
def applyOp (m : ElysiaClerkMock) : MockOp → ElysiaClerkMock
  | .admin c => m.mockAdmin c
  | .user c => m.mockUser c
  | .unauthenticated => m.mockUnauthenticated
  | .set u => m.setUser u

/-- Apply a sequence of mutations, left to right. -/
def applyOps (m : ElysiaClerkMock) (ops : List MockOp) : ElysiaClerkMock :=
  ops.foldl applyOp m

/-- Models JavaScript `s.startsWith(pre)` as a character-prefix test. -/
def strStartsWith (s pre : String) : Bool :=
  pre.data.isPrefixOf s.data

/-- Outcome of one request-gate evaluation: an error rejection with HTTP
status and message, or admission with the attached `auth` context value. -/
inductive GateResult where
  | reject : Nat → String → GateResult
  | admitted : AuthObject → GateResult

/-- The `resolve` step of the plugin: reads the `Authorization` header
(`none` models an absent header) and either rejects with 401 or admits,
attaching the store's current auth object.  The source's falsiness test
`!authorization` is the `none` case together with the empty-string check. -/
def gateResolve (m : ElysiaClerkMock) (authorization : Option String) : GateResult :=
  match authorization with
  | none => .reject 401 "Unauthorized - No token provided"
  | some a =>
    if a == "" || !(strStartsWith a "Bearer ") then
      .reject 401 "Unauthorized - No token provided"
    else if a == "Bearer invalid-token" then
      .reject 401 "Unauthorized - Invalid token"
    else if a == "Bearer expired-token" then
      .reject 401 "Unauthorized - Expired token"
    else
      .admitted m.authObject

/-- One request handled against the store: the gate outcome together with
the store state afterwards.  The source's resolve closure contains no
assignment to the store, so the post-state is the pre-state. -/
def gateStep (m : ElysiaClerkMock) (authorization : Option String) :
    GateResult × ElysiaClerkMock :=
  (gateResolve m authorization, m)

/-- The two wire values of the source's `AuthStatus` enum. -/
inductive AuthStatus where
  | signedIn
  | signedOut
deriving DecidableEq

/-- The string each `AuthStatus` member carries in the source. -/
def AuthStatus.toWire : AuthStatus → String
  | .signedIn => "signed_in"
  | .signedOut => "signed_out"

/-- The value returned by `toAuth()` on the mock client's
`authenticateRequest` result. -/
structure ToAuthResult where
  userId : JsVal String
  orgId : JsVal String
  isAuthenticated : Bool
deriving DecidableEq

/-- The value returned by the mock client's `authenticateRequest`. -/
structure AuthenticateRequestResult where
  toAuth : Unit → ToAuthResult
  status : AuthStatus

/-- `mockClerkClient.authenticateRequest`: ignores the request argument and
derives a signed-in/out status and a `toAuth()` echo from the current auth
object, testing `userId !== null`. -/
def mockClerkClientAuthenticateRequest (m : ElysiaClerkMock) : AuthenticateRequestResult :=
  { toAuth := fun _ =>
      { userId := m.authObject.userId
        orgId := m.authObject.orgId
        isAuthenticated := jsNotNull m.authObject.userId }
    status := if jsNotNull m.authObject.userId then .signedIn else .signedOut }

/-- A top-level auth object in the reference-semantics model: same fields
as `AuthObject`, but the nested `sessionClaims` record is held by address
into a separate heap of claims cells, mirroring JavaScript object
identity.  Object spread copies this address, not the record. -/
structure TopObjR where
  userId : JsVal String
  orgId : JsVal String
  sessionClaims : JsVal Nat
  sessionId : JsVal String
  actor : JsVal ActorObj
  orgRole : JsVal String
  orgSlug : JsVal String
  orgPermissions : JsVal (List String)
  factorVerificationAge : JsVal (Int × Int)
  getToken : Unit → String
  has : String → Bool
  debug : Unit → List (String × String)

/-- Reference-semantics model of the slice of the class that the
`getUser`-snapshot question depends on: a heap of session-claims cells, a
heap of top-level auth objects, an allocation counter, and the address of
the store's current `authObject`. -/
structure JsHeapState where
  claimsCell : Nat → SessionClaims
  tops : Nat → TopObjR
  nextTop : Nat
  storeAddr : Nat

/-- The store's top-level object right after `new ElysiaClerkMock()`:
the fields of `DEFAULT_AUTH_OBJECT`, with `sessionClaims` referencing the
claims cell at address 0. -/
def defaultTopObjR : TopObjR :=
  { userId := .val "user_default"
    orgId := .val "org_default"
    sessionClaims := .val 0
    sessionId := .val "sess_default"
    actor := .undefinedVal
    orgRole := .val "org:member"
    orgSlug := .undefinedVal
    orgPermissions := .undefinedVal
    factorVerificationAge := .jnull
    getToken := fun _ => ""
    has := fun _ => false
    debug := fun _ => [] }

/-- The heap state right after `new ElysiaClerkMock()` with no arguments:
one claims cell (the default claims) and the store's object at address 0
referencing it. -/
def jsInitState : JsHeapState :=
  { claimsCell := fun _ => defaultSessionClaims
    tops := fun _ => defaultTopObjR
    nextTop := 1
    storeAddr := 0 }

/-- `getUser()` in the reference model: `\x7b ...this.authObject \x7d`
allocates a fresh top-level object whose fields (including the
`sessionClaims` address) are copied from the store's object, and returns
its address.  The store itself is untouched. -/
def jsGetUser (s : JsHeapState) : JsHeapState × Nat :=
  ({ s with
      tops := Function.update s.tops s.nextTop (s.tops s.storeAddr)
      nextTop := s.nextTop + 1 },
    s.nextTop)

/-- Caller-side in-place mutation of the nested claims record reachable
from the top-level object at `topAddr` (JavaScript
`obj.sessionClaims.field = v`): rewrites the referenced claims cell; a
no-op when the slot holds no object. -/
def jsWriteClaimsField (s : JsHeapState) (topAddr : Nat)
    (f : SessionClaims → SessionClaims) : JsHeapState :=
  match (s.tops topAddr).sessionClaims with
  | .val c => { s with claimsCell := Function.update s.claimsCell c (f (s.claimsCell c)) }
  | _ => s

/-- Caller-side in-place mutation of a top-level field of the object at
`topAddr` (JavaScript `obj.userId = v`). -/
def jsWriteTopUserId (s : JsHeapState) (topAddr : Nat) (v : JsVal String) : JsHeapState :=
  { s with tops := Function.update s.tops topAddr { s.tops topAddr with userId := v } }

/-- The session claims observed through the top-level object at address
`a`: the referenced cell's current contents. -/
def jsClaimsAt (s : JsHeapState) (a : Nat) : JsVal SessionClaims :=
  match (s.tops a).sessionClaims with
  | .val c => .val (s.claimsCell c)
  | .jnull => .jnull
  | .undefinedVal => .undefinedVal

/-- The session claims the store's own current auth object holds. -/
def jsStoreClaims (s : JsHeapState) : JsVal SessionClaims :=
  jsClaimsAt s s.storeAddr

/-- Applying one mutation op never touches the stored default identity. -/
theorem applyOp_defaultAuthObject (m : ElysiaClerkMock) (op : MockOp) :
    (applyOp m op).defaultAuthObject = m.defaultAuthObject := by
  cases op <;> rfl

/-- Applying a sequence of mutation ops never touches the stored default
identity. -/
theorem applyOps_defaultAuthObject (ops : List MockOp) (m : ElysiaClerkMock) :
    (applyOps m ops).defaultAuthObject = m.defaultAuthObject := by
  induction ops generalizing m with
  | nil => rfl
  | cons op rest ih => exact (ih (applyOp m op)).trans (applyOp_defaultAuthObject m op)

/-- An admitted gate evaluation always attaches exactly the store's current
auth object. -/
theorem gate_admitted_attaches (m : ElysiaClerkMock) (h : Option String) (a : AuthObject)
    (e : gateResolve m h = .admitted a) : a = m.authObject := by
  cases h with
  | none => simp [gateResolve] at e
  | some s =>
    unfold gateResolve at e
    split at e
    · simp at e
    · split at e
      · simp at e
      · split at e
        · simp at e
        · split at e
          · simp at e
          · injection e with h2
            exact h2.symm

/-- C1: the Request Gate's outcome is decided solely by the Authorization
header: an absent header, or one not prefixed by the literal "Bearer ", is
rejected with 401 "Unauthorized - No token provided"; the exact values
"Bearer invalid-token" and "Bearer expired-token" are rejected with 401
and their fixed messages; every other header value admits the request and
attaches the store's current identity as the auth context value. -/
theorem C1_request_gate_outcomes (m : ElysiaClerkMock) :
    gateResolve m none = .reject 401 "Unauthorized - No token provided"
    ∧ (∀ a, strStartsWith a "Bearer " = false →
        gateResolve m (some a) = .reject 401 "Unauthorized - No token provided")
    ∧ gateResolve m (some "Bearer invalid-token") = .reject 401 "Unauthorized - Invalid token"
    ∧ gateResolve m (some "Bearer expired-token") = .reject 401 "Unauthorized - Expired token"
    ∧ (∀ a, strStartsWith a "Bearer " = true → a ≠ "Bearer invalid-token" →
        a ≠ "Bearer expired-token" → gateResolve m (some a) = .admitted m.getUser) := by
  refine ⟨rfl, ?_, rfl, rfl, ?_⟩
  · intro a h1
    simp [gateResolve, h1]
  · intro a h1 h2 h3
    have ha : (a == "") = false := by
      rcases eq_or_ne a "" with rfl | hne
      · exact absurd h1 (by decide)
      · exact beq_eq_false_iff_ne.mpr hne
    simp [gateResolve, ha, h1, beq_eq_false_iff_ne.mpr h2, beq_eq_false_iff_ne.mpr h3,
      ElysiaClerkMock.getUser]

/-- C1 witness: the rejection and admission branches instantiated at a
concrete store and concrete headers. -/
theorem C1_request_gate_outcomes_witness :
    gateResolve (ElysiaClerkMock.init noUpdate) (some "token")
      = .reject 401 "Unauthorized - No token provided"
    ∧ gateResolve (ElysiaClerkMock.init noUpdate) (some "Bearer valid-token")
      = .admitted (ElysiaClerkMock.init noUpdate).getUser :=
  ⟨(C1_request_gate_outcomes (ElysiaClerkMock.init noUpdate)).2.1 "token" (by decide),
   (C1_request_gate_outcomes (ElysiaClerkMock.init noUpdate)).2.2.2.2 "Bearer valid-token"
     (by decide) (by decide) (by decide)⟩

/-- C2: setUser followed by getUser is the shallow merge of the partial
onto the prior identity: each top-level field of the result is the
partial's value when that key is present and the prior identity's value
otherwise; in particular a supplied sessionClaims replaces the stored one
wholesale, with no deep merge. -/
theorem C2_setUser_shallow_merge (m : ElysiaClerkMock) (f : PartialAuth) :
    ((m.setUser f).getUser).userId
        = (match f.userId with | some v => v | none => m.getUser.userId)
    ∧ ((m.setUser f).getUser).orgId
        = (match f.orgId with | some v => v | none => m.getUser.orgId)
    ∧ ((m.setUser f).getUser).sessionClaims
        = (match f.sessionClaims with | some v => v | none => m.getUser.sessionClaims)
    ∧ ((m.setUser f).getUser).sessionId
        = (match f.sessionId with | some v => v | none => m.getUser.sessionId)
    ∧ ((m.setUser f).getUser).actor
        = (match f.actor with | some v => v | none => m.getUser.actor)
    ∧ ((m.setUser f).getUser).orgRole
        = (match f.orgRole with | some v => v | none => m.getUser.orgRole)
    ∧ ((m.setUser f).getUser).orgSlug
        = (match f.orgSlug with | some v => v | none => m.getUser.orgSlug)
    ∧ ((m.setUser f).getUser).orgPermissions
        = (match f.orgPermissions with | some v => v | none => m.getUser.orgPermissions)
    ∧ ((m.setUser f).getUser).factorVerificationAge
        = (match f.factorVerificationAge with | some v => v | none => m.getUser.factorVerificationAge)
    ∧ ((m.setUser f).getUser).getToken
        = (match f.getToken with | some v => v | none => m.getUser.getToken)
    ∧ ((m.setUser f).getUser).has
        = (match f.has with | some v => v | none => m.getUser.has)
    ∧ ((m.setUser f).getUser).debug
        = (match f.debug with | some v => v | none => m.getUser.debug)
    ∧ (∀ sc, f.sessionClaims = some sc → ((m.setUser f).getUser).sessionClaims = sc) := by
  refine ⟨?_, ?_, ?_, ?_, ?_, ?_, ?_, ?_, ?_, ?_, ?_, ?_, ?_⟩
  · cases h : f.userId <;> simp [ElysiaClerkMock.setUser, ElysiaClerkMock.getUser, spreadAuth, h]
  · cases h : f.orgId <;> simp [ElysiaClerkMock.setUser, ElysiaClerkMock.getUser, spreadAuth, h]
  · cases h : f.sessionClaims <;>
      simp [ElysiaClerkMock.setUser, ElysiaClerkMock.getUser, spreadAuth, h]
  · cases h : f.sessionId <;> simp [ElysiaClerkMock.setUser, ElysiaClerkMock.getUser, spreadAuth, h]
  · cases h : f.actor <;> simp [ElysiaClerkMock.setUser, ElysiaClerkMock.getUser, spreadAuth, h]
  · cases h : f.orgRole <;> simp [ElysiaClerkMock.setUser, ElysiaClerkMock.getUser, spreadAuth, h]
  · cases h : f.orgSlug <;> simp [ElysiaClerkMock.setUser, ElysiaClerkMock.getUser, spreadAuth, h]
  · cases h : f.orgPermissions <;>
      simp [ElysiaClerkMock.setUser, ElysiaClerkMock.getUser, spreadAuth, h]
  · cases h : f.factorVerificationAge <;>
      simp [ElysiaClerkMock.setUser, ElysiaClerkMock.getUser, spreadAuth, h]
  · cases h : f.getToken <;> simp [ElysiaClerkMock.setUser, ElysiaClerkMock.getUser, spreadAuth, h]
  · cases h : f.has <;> simp [ElysiaClerkMock.setUser, ElysiaClerkMock.getUser, spreadAuth, h]
  · cases h : f.debug <;> simp [ElysiaClerkMock.setUser, ElysiaClerkMock.getUser, spreadAuth, h]
  · intro sc h
    simp [ElysiaClerkMock.setUser, ElysiaClerkMock.getUser, spreadAuth, h]

/-- A concrete full sessionClaims record for witnesses. -/
def sampleClaims : SessionClaims :=
  { __raw := ""
    sub := "user_456"
    iss := "https://clerk.com"
    sid := "sess_custom"
    nbf := 0
    exp := 0
    iat := 0
    roles := none }

/-- A concrete partial update supplying userId and a full sessionClaims
record. -/
def samplePartial : PartialAuth :=
  { noUpdate with
    userId := some (.val "user_456")
    sessionClaims := some (.val sampleClaims) }

/-- C2 witness: the wholesale-replacement clause at a concrete store and a
concrete partial. -/
theorem C2_setUser_shallow_merge_witness :
    (((ElysiaClerkMock.init noUpdate).setUser samplePartial).getUser).sessionClaims
      = .val sampleClaims :=
  (C2_setUser_shallow_merge (ElysiaClerkMock.init noUpdate)
      samplePartial).2.2.2.2.2.2.2.2.2.2.2.2 (.val sampleClaims) rfl

/-- C3: none of mockAdmin, mockUser, mockUnauthenticated or setUser changes
the default identity captured at construction, and after any sequence of
these mutations a single reset makes getUser return the identity captured
at construction. -/
theorem C3_default_immutable_reset_restores (initialUser : PartialAuth) (ops : List MockOp) :
    (applyOps (ElysiaClerkMock.init initialUser) ops).defaultAuthObject
        = (ElysiaClerkMock.init initialUser).defaultAuthObject
    ∧ ((applyOps (ElysiaClerkMock.init initialUser) ops).reset).getUser
        = (ElysiaClerkMock.init initialUser).getUser := by
  refine ⟨applyOps_defaultAuthObject ops _, ?_⟩
  show (applyOps (ElysiaClerkMock.init initialUser) ops).defaultAuthObject = _
  exact applyOps_defaultAuthObject ops _

/-- C4 counterexample: the claim that mockAdmin's result is determined by
the preset and the custom fields alone is false — with the same empty
custom fields, two prior identities differing in sessionId give different
results, because setUser merges the preset onto the current identity and
the preset has no sessionId key. -/
theorem C4_mockAdmin_prior_identity_counterexample :
    (((ElysiaClerkMock.init noUpdate).setUser
        { noUpdate with sessionId := some (.val "sess_A") }).mockAdmin noUpdate).getUser.sessionId
      = .val "sess_A"
    ∧ (((ElysiaClerkMock.init noUpdate).setUser
        { noUpdate with sessionId := some (.val "sess_B") }).mockAdmin noUpdate).getUser.sessionId
      = .val "sess_B"
    ∧ (((ElysiaClerkMock.init noUpdate).setUser
        { noUpdate with sessionId := some (.val "sess_A") }).mockAdmin noUpdate).getUser.sessionId
      ≠ (((ElysiaClerkMock.init noUpdate).setUser
        { noUpdate with sessionId := some (.val "sess_B") }).mockAdmin noUpdate).getUser.sessionId :=
  ⟨by decide, by decide, by decide⟩

/-- C4 amended: mockAdmin(c) sets the current identity to the previous
current identity shallow-merged with the admin preset shallow-merged with
c; the preset-covered fields (userId, orgId, orgRole, sessionClaims) are
determined by the preset and c alone, with c winning on collision, while
fields outside the preset that c does not supply carry over from the
previous current identity. -/
theorem C4_mockAdmin_merge_amended (m : ElysiaClerkMock) (c : PartialAuth) :
    (m.mockAdmin c).getUser = spreadAuth m.getUser (overlayPartial adminPreset c)
    ∧ (c.userId = none → (m.mockAdmin c).getUser.userId = .val "user_admin")
    ∧ (c.orgId = none → (m.mockAdmin c).getUser.orgId = .val "org_admin")
    ∧ (c.orgRole = none → (m.mockAdmin c).getUser.orgRole = .val "org:admin")
    ∧ (c.sessionClaims = none →
        (m.mockAdmin c).getUser.sessionClaims = .val adminSessionClaims)
    ∧ (c.sessionId = none → (m.mockAdmin c).getUser.sessionId = m.getUser.sessionId)
    ∧ (∀ v, c.userId = some v → (m.mockAdmin c).getUser.userId = v) := by
  refine ⟨rfl, ?_, ?_, ?_, ?_, ?_, ?_⟩
  · intro h
    simp [ElysiaClerkMock.mockAdmin, ElysiaClerkMock.setUser, ElysiaClerkMock.getUser,
      spreadAuth, overlayPartial, adminPreset, noUpdate, pickField, h]
  · intro h
    simp [ElysiaClerkMock.mockAdmin, ElysiaClerkMock.setUser, ElysiaClerkMock.getUser,
      spreadAuth, overlayPartial, adminPreset, noUpdate, pickField, h]
  · intro h
    simp [ElysiaClerkMock.mockAdmin, ElysiaClerkMock.setUser, ElysiaClerkMock.getUser,
      spreadAuth, overlayPartial, adminPreset, noUpdate, pickField, h]
  · intro h
    simp [ElysiaClerkMock.mockAdmin, ElysiaClerkMock.setUser, ElysiaClerkMock.getUser,
      spreadAuth, overlayPartial, adminPreset, noUpdate, pickField, h]
  · intro h
    simp [ElysiaClerkMock.mockAdmin, ElysiaClerkMock.setUser, ElysiaClerkMock.getUser,
      spreadAuth, overlayPartial, adminPreset, noUpdate, pickField, h]
  · intro v h
    simp [ElysiaClerkMock.mockAdmin, ElysiaClerkMock.setUser, ElysiaClerkMock.getUser,
      spreadAuth, overlayPartial, adminPreset, noUpdate, pickField, h]

/-- C4 amended witness: with empty custom fields, a preset-covered field is
the preset's and sessionId carries over from the prior identity. -/
theorem C4_mockAdmin_merge_amended_witness :
    ((ElysiaClerkMock.init noUpdate).mockAdmin noUpdate).getUser.userId = .val "user_admin"
    ∧ ((ElysiaClerkMock.init noUpdate).mockAdmin noUpdate).getUser.sessionId
      = (ElysiaClerkMock.init noUpdate).getUser.sessionId :=
  ⟨(C4_mockAdmin_merge_amended (ElysiaClerkMock.init noUpdate) noUpdate).2.1 rfl,
   (C4_mockAdmin_merge_amended (ElysiaClerkMock.init noUpdate) noUpdate).2.2.2.2.2.1 rfl⟩

/-- C5: after mockUnauthenticated (which takes no parameters) every data
field of getUser's result is explicitly null, while the three capability
functions remain present with their standard behaviour: getToken resolves
to the empty string, has returns false, debug returns the empty record. -/
theorem C5_mockUnauthenticated_all_null (m : ElysiaClerkMock) :
    (m.mockUnauthenticated).getUser.userId = .jnull
    ∧ (m.mockUnauthenticated).getUser.orgId = .jnull
    ∧ (m.mockUnauthenticated).getUser.sessionClaims = .jnull
    ∧ (m.mockUnauthenticated).getUser.sessionId = .jnull
    ∧ (m.mockUnauthenticated).getUser.actor = .jnull
    ∧ (m.mockUnauthenticated).getUser.orgRole = .jnull
    ∧ (m.mockUnauthenticated).getUser.orgSlug = .jnull
    ∧ (m.mockUnauthenticated).getUser.orgPermissions = .jnull
    ∧ (m.mockUnauthenticated).getUser.factorVerificationAge = .jnull
    ∧ (m.mockUnauthenticated).getUser.getToken () = ""
    ∧ (∀ p, (m.mockUnauthenticated).getUser.has p = false)
    ∧ (m.mockUnauthenticated).getUser.debug () = [] :=
  ⟨rfl, rfl, rfl, rfl, rfl, rfl, rfl, rfl, rfl, rfl, fun _ => rfl, rfl⟩

/-- C6 counterexample: getUser's "defensive copy" claim is false — the copy
is shallow, so the nested sessionClaims record of the returned value is
the store's own claims object; mutating it in place through the returned
value is observed by a later getUser (the subject changes from
"user_default" to "tampered"). -/
theorem C6_getUser_nested_aliasing_counterexample :
    jsStoreClaims jsInitState = .val defaultSessionClaims
    ∧ jsClaimsAt
        (jsGetUser (jsWriteClaimsField (jsGetUser jsInitState).1 (jsGetUser jsInitState).2
          (fun c => { c with sub := "tampered" }))).1
        (jsGetUser (jsWriteClaimsField (jsGetUser jsInitState).1 (jsGetUser jsInitState).2
          (fun c => { c with sub := "tampered" }))).2
      = .val { defaultSessionClaims with sub := "tampered" } :=
  ⟨by decide, by decide⟩

/-- C6 amended: the value getUser returns is a fresh top-level object, so
rewriting its top-level fields leaves the store's object and every claims
cell (hence every later getUser observation) unchanged; but its
sessionClaims slot holds the same reference as the store's object, so the
nested claims record is shared rather than defensively copied. -/
theorem C6_getUser_shallow_copy_amended (s : JsHeapState) (h : s.storeAddr < s.nextTop) :
    (jsGetUser s).2 ≠ s.storeAddr
    ∧ (∀ v, (jsWriteTopUserId (jsGetUser s).1 (jsGetUser s).2 v).tops s.storeAddr
        = s.tops s.storeAddr)
    ∧ (∀ v, (jsWriteTopUserId (jsGetUser s).1 (jsGetUser s).2 v).claimsCell = s.claimsCell)
    ∧ (∀ v, jsStoreClaims (jsWriteTopUserId (jsGetUser s).1 (jsGetUser s).2 v) = jsStoreClaims s)
    ∧ ((jsGetUser s).1.tops (jsGetUser s).2).sessionClaims = (s.tops s.storeAddr).sessionClaims := by
  refine ⟨Nat.ne_of_gt h, ?_, fun _ => rfl, ?_, ?_⟩
  · intro v
    simp [jsWriteTopUserId, jsGetUser, Function.update_noteq (Nat.ne_of_lt h)]
  · intro v
    simp [jsStoreClaims, jsClaimsAt, jsWriteTopUserId, jsGetUser,
      Function.update_noteq (Nat.ne_of_lt h)]
  · simp [jsGetUser]

/-- C6 amended witness: a top-level write through the snapshot leaves the
store's observed claims unchanged, at the freshly constructed state. -/
theorem C6_getUser_shallow_copy_amended_witness :
    jsStoreClaims
        (jsWriteTopUserId (jsGetUser jsInitState).1 (jsGetUser jsInitState).2 (.val "user_x"))
      = jsStoreClaims jsInitState :=
  (C6_getUser_shallow_copy_amended jsInitState (by decide)).2.2.2.1 (.val "user_x")

/-- C7: calling mockAdmin with no custom fields twice in a row, from any
current identity, leaves getUser's result the same as calling it once. -/
theorem C7_mockAdmin_idempotent (m : ElysiaClerkMock) :
    ((m.mockAdmin noUpdate).mockAdmin noUpdate).getUser = (m.mockAdmin noUpdate).getUser := rfl

/-- The concrete partial of C8's scenario: userId "u1" and orgId "o1". -/
def partialU1O1 : PartialAuth :=
  { noUpdate with
    userId := some (.val "u1")
    orgId := some (.val "o1") }

/-- C8: gate evaluation never mutates the store: the post-state equals the
pre-state for every request, two sequential admitted requests with no
intervening mutation attach equal identities, and after
setUser(userId "u1", orgId "o1") every admitted request observes them. -/
theorem C8_gate_does_not_mutate_store (m : ElysiaClerkMock) (h1 h2 : Option String) :
    (gateStep m h1).2 = m
    ∧ (∀ a1 a2, (gateStep m h1).1 = .admitted a1 →
        (gateStep (gateStep m h1).2 h2).1 = .admitted a2 → a1 = a2)
    ∧ (∀ a1, (gateStep (m.setUser partialU1O1) h1).1 = .admitted a1 →
        a1.userId = .val "u1" ∧ a1.orgId = .val "o1") := by
  refine ⟨rfl, ?_, ?_⟩
  · intro a1 a2 e1 e2
    rw [gate_admitted_attaches m h1 a1 e1, gate_admitted_attaches m h2 a2 e2]
  · intro a1 e1
    rw [gate_admitted_attaches _ h1 a1 e1]
    exact ⟨rfl, rfl⟩

/-- C8 witness: the scenario conjunct applied at a concrete store and a
concrete admitted header. -/
theorem C8_gate_does_not_mutate_store_witness :
    ((ElysiaClerkMock.init noUpdate).setUser partialU1O1).authObject.userId = .val "u1"
    ∧ ((ElysiaClerkMock.init noUpdate).setUser partialU1O1).authObject.orgId = .val "o1" :=
  (C8_gate_does_not_mutate_store (ElysiaClerkMock.init noUpdate)
    (some "Bearer valid-token") (some "Bearer valid-token")).2.2 _ rfl

/-- C9: the mock client's authenticateRequest reports signed_in exactly
when the current identity's userId is not null (signed_out otherwise), and
toAuth echoes the current userId and orgId with isAuthenticated equal to
the same non-null test. -/
theorem C9_mock_clerk_client_status (m : ElysiaClerkMock) :
    ((mockClerkClientAuthenticateRequest m).status = .signedIn ↔ m.getUser.userId ≠ .jnull)
    ∧ ((mockClerkClientAuthenticateRequest m).status = .signedOut ↔ m.getUser.userId = .jnull)
    ∧ ((mockClerkClientAuthenticateRequest m).toAuth ()).userId = m.getUser.userId
    ∧ ((mockClerkClientAuthenticateRequest m).toAuth ()).orgId = m.getUser.orgId
    ∧ (((mockClerkClientAuthenticateRequest m).toAuth ()).isAuthenticated = true
        ↔ m.getUser.userId ≠ .jnull) := by
  refine ⟨?_, ?_, rfl, rfl, ?_⟩
  · unfold mockClerkClientAuthenticateRequest ElysiaClerkMock.getUser
    cases h : m.authObject.userId <;> simp [jsNotNull, h]
  · unfold mockClerkClientAuthenticateRequest ElysiaClerkMock.getUser
    cases h : m.authObject.userId <;> simp [jsNotNull, h]
  · unfold mockClerkClientAuthenticateRequest ElysiaClerkMock.getUser
    cases h : m.authObject.userId <;> simp [jsNotNull, h]

/-- C9 witness: the freshly constructed store (userId "user_default") is
reported signed_in. -/
theorem C9_mock_clerk_client_status_witness :
    (mockClerkClientAuthenticateRequest (ElysiaClerkMock.init noUpdate)).status = .signedIn :=
  (C9_mock_clerk_client_status (ElysiaClerkMock.init noUpdate)).1.mpr (by decide)

/-- C10: a header of exactly "Bearer " (empty token) is admitted with the
current identity attached, as is any "Bearer "-prefixed header not
character-for-character equal to the two magic strings — for example
"Bearer invalid-token " with a trailing space. -/
theorem C10_gate_prefix_only_admission (m : ElysiaClerkMock) :
    gateResolve m (some "Bearer ") = .admitted m.getUser
    ∧ gateResolve m (some "Bearer invalid-token ") = .admitted m.getUser
    ∧ (∀ a, strStartsWith a "Bearer " = true → a ≠ "Bearer invalid-token" →
        a ≠ "Bearer expired-token" → gateResolve m (some a) = .admitted m.getUser) := by
  refine ⟨rfl, rfl, ?_⟩
  intro a h1 h2 h3
  have ha : (a == "") = false := by
    rcases eq_or_ne a "" with rfl | hne
    · exact absurd h1 (by decide)
    · exact beq_eq_false_iff_ne.mpr hne
  simp [gateResolve, ha, h1, beq_eq_false_iff_ne.mpr h2, beq_eq_false_iff_ne.mpr h3,
    ElysiaClerkMock.getUser]

/-- C10 witness: the general admission clause at a concrete store and a
concrete non-magic bearer header. -/
theorem C10_gate_prefix_only_admission_witness :
    gateResolve (ElysiaClerkMock.init noUpdate) (some "Bearer expired-token2")
      = .admitted (ElysiaClerkMock.init noUpdate).getUser :=
  (C10_gate_prefix_only_admission (ElysiaClerkMock.init noUpdate)).2.2 "Bearer expired-token2"
    (by decide) (by decide) (by decide)
